import Mathlib

/-!
Shallow embedding of the Stream token module of
`directus-extension-getstream-io` (file `src/streamio.ts`): the two token
operations `generateUserToken` and `generateCallToken`, the deprecated
alias `generateStreamToken`, and the configuration validator
`validateStreamConfig`.

Modelling choices:
- JavaScript truthiness of the optional inputs is made explicit:
  `if (expirationSeconds)` is false for `undefined` and for `0`, and
  `if (role)` is false for `undefined` and for the empty string.  Optional
  values are `Option`; `none` is JavaScript `undefined`.
- The vendor SDK (`StreamClient` and its `generateUserToken` /
  `generateCallToken` methods) is an external collaborator; it is modelled
  as an arbitrary function from the request-parameter record to
  `Except String String`: `.ok token` for a returned token string,
  `.error m` for a thrown exception with message `m`.
- `Date.now()` is a parameter `now`, in whole seconds (the source computes
  `Math.floor(Date.now() / 1000)` before using it); `expiresAt` is the
  resulting Unix timestamp in seconds.
- Thrown `Error` values are `Except.error` carrying the message string,
  exactly the strings of the source.
-/

/-- JavaScript truthiness of an optional number: `undefined` and `0` are
falsy (`if (expirationSeconds)` in the source). -/
def jsTruthyNat : Option Nat → Bool
  | none => false
  | some n => n != 0

/-- JavaScript truthiness of an optional string: `undefined` and `""` are
falsy (`if (role)` in the source). -/
def jsTruthyStr : Option String → Bool
  | none => false
  | some s => s != ""

/-- `StreamTokenConfig` of `src/streamio.ts`. -/
structure StreamTokenConfig where
  apiKey : String
  apiSecret : String
  userId : String
  expirationSeconds : Option Nat := none
deriving Repr, DecidableEq

/-- `StreamCallTokenConfig` of `src/streamio.ts`.  `callIds` is declared
`string[]` in TypeScript but the runtime check `!callIds` also guards a
missing array, so it is modelled as `Option (List String)` with `none` for
an absent array. -/
structure StreamCallTokenConfig where
  apiKey : String
  apiSecret : String
  userId : String
  callIds : Option (List String) := none
  role : Option String := none
  expirationSeconds : Option Nat := none
deriving Repr, DecidableEq

/-- Token kind tag of `StreamTokenResponse.type`. -/
inductive TokenType where
  | user
  | call
deriving Repr, DecidableEq

/-- `StreamTokenResponse` of `src/streamio.ts`.  `expiresAt` is the Unix
timestamp in seconds (the source stores `new Date(expirationTime * 1000)`
where `expirationTime` is that timestamp). -/
structure StreamTokenResponse where
  token : String
  userId : String
  apiKey : String
  expiresAt : Option Nat := none
  type : TokenType
  callIds : Option (List String) := none
  role : Option String := none
deriving Repr, DecidableEq

/-- The argument record passed to the vendor `client.generateUserToken`:
the source always writes
`{ user_id: userId, validity_in_seconds: expirationSeconds }`, so the
validity field is exactly the (possibly absent) `expirationSeconds`. -/
structure UserTokenParams where
  user_id : String
  validity_in_seconds : Option Nat := none
deriving Repr, DecidableEq

/-- The argument record passed to the vendor `client.generateCallToken`
(`tokenParams` in the source): `user_id` and `call_cids` always;
`validity_in_seconds` added only under `if (expirationSeconds)`; `role`
added only under `if (role)`. -/
structure CallTokenParams where
  user_id : String
  call_cids : List String
  validity_in_seconds : Option Nat := none
  role : Option String := none
deriving Repr, DecidableEq

/-- The record the source passes to `client.generateUserToken`. -/
def mkUserTokenParams (config : StreamTokenConfig) : UserTokenParams :=
  { user_id := config.userId
    validity_in_seconds := config.expirationSeconds }

/-- The `tokenParams` record the source builds for
`client.generateCallToken`. -/
def mkCallTokenParams (config : StreamCallTokenConfig) : CallTokenParams :=
  { user_id := config.userId
    call_cids := config.callIds.getD []
    validity_in_seconds :=
      if jsTruthyNat config.expirationSeconds then config.expirationSeconds
      else none
    role := if jsTruthyStr config.role then config.role else none }

/-- `generateUserToken` of `src/streamio.ts`.  `signer` stands for the
vendor call `client.generateUserToken` of the `StreamClient` built from
`(apiKey, apiSecret)`; `now` is `Math.floor(Date.now() / 1000)`. -/
def generateUserToken (signer : UserTokenParams → Except String String)
    (now : Nat) (config : StreamTokenConfig) :
    Except String StreamTokenResponse :=
  if config.apiKey = "" ∨ config.apiSecret = "" then
    .error "Stream.io API key and secret are required"
  else if config.userId = "" then
    .error "User ID is required to generate a token"
  else
    match signer (mkUserTokenParams config) with
    | .error m => .error ("Failed to generate Stream.io user token: " ++ m)
    | .ok token =>
        .ok { token := token
              userId := config.userId
              apiKey := config.apiKey
              type := TokenType.user
              expiresAt :=
                if jsTruthyNat config.expirationSeconds then
                  some (now + config.expirationSeconds.getD 0)
                else none }

/-- `generateCallToken` of `src/streamio.ts`. -/
def generateCallToken (signer : CallTokenParams → Except String String)
    (now : Nat) (config : StreamCallTokenConfig) :
    Except String StreamTokenResponse :=
  if config.apiKey = "" ∨ config.apiSecret = "" then
    .error "Stream.io API key and secret are required"
  else if config.userId = "" then
    .error "User ID is required to generate a call token"
  else if config.callIds = none ∨ config.callIds.getD [] = [] then
    .error "At least one call ID is required to generate a call token"
  else
    match signer (mkCallTokenParams config) with
    | .error m => .error ("Failed to generate Stream.io call token: " ++ m)
    | .ok token =>
        .ok { token := token
              userId := config.userId
              apiKey := config.apiKey
              type := TokenType.call
              callIds := config.callIds
              role := if jsTruthyStr config.role then config.role else none
              expiresAt :=
                if jsTruthyNat config.expirationSeconds then
                  some (now + config.expirationSeconds.getD 0)
                else none }

/-- `generateStreamToken` of `src/streamio.ts`: the deprecated alias,
which forwards to `generateUserToken`. -/
def generateStreamToken (signer : UserTokenParams → Except String String)
    (now : Nat) (config : StreamTokenConfig) :
    Except String StreamTokenResponse :=
  generateUserToken signer now config

/-- The environment mapping as read by `validateStreamConfig`: only the
two required keys are consulted; `none` models an unset variable. -/
structure StreamEnv where
  STREAMIO_API_KEY : Option String := none
  STREAMIO_API_SECRET : Option String := none
deriving Repr, DecidableEq

/-- Result record of `validateStreamConfig`. -/
structure ConfigValidation where
  valid : Bool
  errors : List String
deriving Repr, DecidableEq

/-- `validateStreamConfig` of `src/streamio.ts`: pushes one message per
missing key, API key first, and sets `valid` to `errors.length === 0`. -/
def validateStreamConfig (env : StreamEnv) : ConfigValidation :=
  let errors :=
    (if jsTruthyStr env.STREAMIO_API_KEY then []
     else ["STREAMIO_API_KEY environment variable is not set"]) ++
    (if jsTruthyStr env.STREAMIO_API_SECRET then []
     else ["STREAMIO_API_SECRET environment variable is not set"])
  { valid := errors.length == 0, errors := errors }

/-- A concrete vendor signer for user tokens used in witnesses: always
succeeds with a fixed non-empty token. -/
def demoUserSigner : UserTokenParams → Except String String :=
  fun _ => .ok "token123"

/-- A concrete vendor signer for call tokens used in witnesses: always
succeeds with a fixed non-empty token. -/
def demoCallSigner : CallTokenParams → Except String String :=
  fun _ => .ok "token456"

/-- A concrete vendor signer that throws, used in witnesses for the
error-wrapping claims. -/
def failingUserSigner : UserTokenParams → Except String String :=
  fun _ => .error "boom"

/-- A concrete throwing vendor signer for call tokens. -/
def failingCallSigner : CallTokenParams → Except String String :=
  fun _ => .error "boom"

/-! ## Helper lemmas -/

lemma generateUserToken_credsMissing
    (signer : UserTokenParams → Except String String) (now : Nat)
    (config : StreamTokenConfig)
    (h : config.apiKey = "" ∨ config.apiSecret = "") :
    generateUserToken signer now config =
      .error "Stream.io API key and secret are required" := by
  unfold generateUserToken
  rw [if_pos h]

lemma generateUserToken_userIdMissing
    (signer : UserTokenParams → Except String String) (now : Nat)
    (config : StreamTokenConfig)
    (hc : ¬(config.apiKey = "" ∨ config.apiSecret = ""))
    (hu : config.userId = "") :
    generateUserToken signer now config =
      .error "User ID is required to generate a token" := by
  unfold generateUserToken
  rw [if_neg hc, if_pos hu]

lemma generateCallToken_credsMissing
    (signer : CallTokenParams → Except String String) (now : Nat)
    (config : StreamCallTokenConfig)
    (h : config.apiKey = "" ∨ config.apiSecret = "") :
    generateCallToken signer now config =
      .error "Stream.io API key and secret are required" := by
  unfold generateCallToken
  rw [if_pos h]

lemma generateCallToken_userIdMissing
    (signer : CallTokenParams → Except String String) (now : Nat)
    (config : StreamCallTokenConfig)
    (hc : ¬(config.apiKey = "" ∨ config.apiSecret = ""))
    (hu : config.userId = "") :
    generateCallToken signer now config =
      .error "User ID is required to generate a call token" := by
  unfold generateCallToken
  rw [if_neg hc, if_pos hu]

lemma generateCallToken_callIdsMissing
    (signer : CallTokenParams → Except String String) (now : Nat)
    (config : StreamCallTokenConfig)
    (hc : ¬(config.apiKey = "" ∨ config.apiSecret = ""))
    (hu : ¬ config.userId = "")
    (hi : config.callIds = none ∨ config.callIds = some []) :
    generateCallToken signer now config =
      .error "At least one call ID is required to generate a call token" := by
  unfold generateCallToken
  rw [if_neg hc, if_neg hu, if_pos (by rcases hi with h | h <;> simp [h])]

lemma generateUserToken_ok_inv
    (signer : UserTokenParams → Except String String) (now : Nat)
    (config : StreamTokenConfig) (r : StreamTokenResponse)
    (h : generateUserToken signer now config = .ok r) :
    ∃ t, signer (mkUserTokenParams config) = .ok t ∧
      r = { token := t, userId := config.userId, apiKey := config.apiKey,
            type := TokenType.user,
            expiresAt :=
              if jsTruthyNat config.expirationSeconds then
                some (now + config.expirationSeconds.getD 0)
              else none } := by
  unfold generateUserToken at h
  split at h
  · simp at h
  · split at h
    · simp at h
    · cases hs : signer (mkUserTokenParams config) with
      | error m => rw [hs] at h; simp at h
      | ok t =>
        rw [hs] at h
        simp only [Except.ok.injEq] at h
        exact ⟨t, rfl, h.symm⟩

lemma generateCallToken_ok_inv
    (signer : CallTokenParams → Except String String) (now : Nat)
    (config : StreamCallTokenConfig) (r : StreamTokenResponse)
    (h : generateCallToken signer now config = .ok r) :
    ∃ t, signer (mkCallTokenParams config) = .ok t ∧
      r = { token := t, userId := config.userId, apiKey := config.apiKey,
            type := TokenType.call,
            callIds := config.callIds,
            role := if jsTruthyStr config.role then config.role else none,
            expiresAt :=
              if jsTruthyNat config.expirationSeconds then
                some (now + config.expirationSeconds.getD 0)
              else none } := by
  unfold generateCallToken at h
  split at h
  · simp at h
  · split at h
    · simp at h
    · split at h
      · simp at h
      · cases hs : signer (mkCallTokenParams config) with
        | error m => rw [hs] at h; simp at h
        | ok t =>
          rw [hs] at h
          simp only [Except.ok.injEq] at h
          exact ⟨t, rfl, h.symm⟩

/-! ## Claim theorems -/

/-- Claim C1: for every user-token request with non-empty apiKey,
apiSecret and userId, if the vendor signer returns a non-empty token
string without throwing, `generateUserToken` succeeds with a response of
type "user" echoing the request's userId and apiKey and carrying a
non-empty token. -/
theorem C1_user_token_success
    (signer : UserTokenParams → Except String String) (now : Nat)
    (config : StreamTokenConfig) (t : String)
    (hk : config.apiKey ≠ "") (hs : config.apiSecret ≠ "")
    (hu : config.userId ≠ "")
    (hsig : signer (mkUserTokenParams config) = .ok t) (ht : t ≠ "") :
    ∃ r, generateUserToken signer now config = .ok r ∧
      r.type = TokenType.user ∧ r.userId = config.userId ∧
      r.apiKey = config.apiKey ∧ r.token ≠ "" := by
  have heq : generateUserToken signer now config =
      .ok { token := t, userId := config.userId, apiKey := config.apiKey,
            type := TokenType.user,
            expiresAt :=
              if jsTruthyNat config.expirationSeconds then
                some (now + config.expirationSeconds.getD 0)
              else none } := by
    unfold generateUserToken
    rw [if_neg (not_or.mpr ⟨hk, hs⟩), if_neg hu, hsig]
  exact ⟨_, heq, rfl, rfl, rfl, ht⟩

/-- Witness for C1 at a concrete request and signer. -/
theorem C1_witness :
    ∃ r, generateUserToken demoUserSigner 1000
        { apiKey := "k", apiSecret := "s", userId := "alice" } = .ok r ∧
      r.type = TokenType.user ∧ r.userId = "alice" ∧
      r.apiKey = "k" ∧ r.token ≠ "" :=
  C1_user_token_success demoUserSigner 1000
    { apiKey := "k", apiSecret := "s", userId := "alice" } "token123"
    (by decide) (by decide) (by decide) rfl (by decide)

/-- Claim C2 counterexample: explicitly supplying expirationSeconds = 0
yields a successful response WITHOUT expiresAt, refuting the claimed
equivalence "the response contains expiresAt iff the caller supplied
expirationSeconds". -/
theorem C2_counterexample :
    ¬ (∀ (signer : UserTokenParams → Except String String) (now : Nat)
          (config : StreamTokenConfig) (r : StreamTokenResponse),
        generateUserToken signer now config = .ok r →
        (config.expirationSeconds.isSome ↔ r.expiresAt.isSome)) := by
  intro hclaim
  have h := hclaim demoUserSigner 1000
      { apiKey := "k", apiSecret := "s", userId := "alice",
        expirationSeconds := some 0 }
      { token := "token123", userId := "alice", apiKey := "k",
        expiresAt := none, type := TokenType.user } rfl
  simp at h

/-- Claim C2 (amended): for both operations, a successful response
carries expiresAt exactly when the supplied expirationSeconds is truthy
(present and nonzero), in which case expiresAt equals the call-time clock
plus expirationSeconds; when expirationSeconds is omitted (or zero),
expiresAt is absent. -/
theorem C2_expiry
    (signerU : UserTokenParams → Except String String)
    (signerC : CallTokenParams → Except String String) (now : Nat)
    (cfgU : StreamTokenConfig) (cfgC : StreamCallTokenConfig)
    (rU rC : StreamTokenResponse) :
    (generateUserToken signerU now cfgU = .ok rU →
      rU.expiresAt =
        if jsTruthyNat cfgU.expirationSeconds then
          some (now + cfgU.expirationSeconds.getD 0)
        else none) ∧
    (generateCallToken signerC now cfgC = .ok rC →
      rC.expiresAt =
        if jsTruthyNat cfgC.expirationSeconds then
          some (now + cfgC.expirationSeconds.getD 0)
        else none) := by
  constructor
  · intro h
    obtain ⟨t, _, hr⟩ := generateUserToken_ok_inv signerU now cfgU rU h
    rw [hr]
  · intro h
    obtain ⟨t, _, hr⟩ := generateCallToken_ok_inv signerC now cfgC rC h
    rw [hr]

/-- Witness for C2 at a concrete request with expirationSeconds = 60 and
clock 1000: expiresAt = 1060 for both operations. -/
theorem C2_witness :
    (({ token := "token123", userId := "alice", apiKey := "k",
        expiresAt := some 1060, type := TokenType.user } :
        StreamTokenResponse).expiresAt =
      if jsTruthyNat (some 60) then some (1000 + (some 60 : Option Nat).getD 0)
      else none) ∧
    (({ token := "token456", userId := "bob", apiKey := "k",
        expiresAt := some 1060, type := TokenType.call,
        callIds := some ["default:c1"] } :
        StreamTokenResponse).expiresAt =
      if jsTruthyNat (some 60) then some (1000 + (some 60 : Option Nat).getD 0)
      else none) :=
  ⟨(C2_expiry demoUserSigner demoCallSigner 1000
      { apiKey := "k", apiSecret := "s", userId := "alice",
        expirationSeconds := some 60 }
      { apiKey := "k", apiSecret := "s", userId := "bob",
        callIds := some ["default:c1"], expirationSeconds := some 60 }
      { token := "token123", userId := "alice", apiKey := "k",
        expiresAt := some 1060, type := TokenType.user }
      { token := "token456", userId := "bob", apiKey := "k",
        expiresAt := some 1060, type := TokenType.call,
        callIds := some ["default:c1"] }).1 rfl,
   (C2_expiry demoUserSigner demoCallSigner 1000
      { apiKey := "k", apiSecret := "s", userId := "alice",
        expirationSeconds := some 60 }
      { apiKey := "k", apiSecret := "s", userId := "bob",
        callIds := some ["default:c1"], expirationSeconds := some 60 }
      { token := "token123", userId := "alice", apiKey := "k",
        expiresAt := some 1060, type := TokenType.user }
      { token := "token456", userId := "bob", apiKey := "k",
        expiresAt := some 1060, type := TokenType.call,
        callIds := some ["default:c1"] }).2 rfl⟩

/-- Claim C3: fail-fast validation with the first failing check winning:
empty credentials give the MissingCredentials error regardless of the
other fields; valid credentials with empty userId give the MissingUserId
error; for call tokens, valid credentials and userId with empty or absent
callIds give the MissingCallIds error.  The signers are universally
quantified and the result is a fixed error, so the vendor signer is never
consulted on these failure paths. -/
theorem C3_validation_order
    (signerU : UserTokenParams → Except String String)
    (signerC : CallTokenParams → Except String String)
    (now : Nat) (cfgU : StreamTokenConfig) (cfgC : StreamCallTokenConfig) :
    ((cfgU.apiKey = "" ∨ cfgU.apiSecret = "") →
      generateUserToken signerU now cfgU =
        .error "Stream.io API key and secret are required") ∧
    ((cfgC.apiKey = "" ∨ cfgC.apiSecret = "") →
      generateCallToken signerC now cfgC =
        .error "Stream.io API key and secret are required") ∧
    (cfgU.apiKey ≠ "" → cfgU.apiSecret ≠ "" → cfgU.userId = "" →
      generateUserToken signerU now cfgU =
        .error "User ID is required to generate a token") ∧
    (cfgC.apiKey ≠ "" → cfgC.apiSecret ≠ "" → cfgC.userId = "" →
      generateCallToken signerC now cfgC =
        .error "User ID is required to generate a call token") ∧
    (cfgC.apiKey ≠ "" → cfgC.apiSecret ≠ "" → cfgC.userId ≠ "" →
      (cfgC.callIds = none ∨ cfgC.callIds = some []) →
      generateCallToken signerC now cfgC =
        .error "At least one call ID is required to generate a call token") := by
  refine ⟨?_, ?_, ?_, ?_, ?_⟩
  · exact generateUserToken_credsMissing signerU now cfgU
  · exact generateCallToken_credsMissing signerC now cfgC
  · intro hk hs hu
    exact generateUserToken_userIdMissing signerU now cfgU
      (not_or.mpr ⟨hk, hs⟩) hu
  · intro hk hs hu
    exact generateCallToken_userIdMissing signerC now cfgC
      (not_or.mpr ⟨hk, hs⟩) hu
  · intro hk hs hu hi
    exact generateCallToken_callIdsMissing signerC now cfgC
      (not_or.mpr ⟨hk, hs⟩) hu hi

/-- Witness for C3 at concrete failing requests for every failure path. -/
theorem C3_witness :
    generateUserToken demoUserSigner 5
      { apiKey := "", apiSecret := "s", userId := "u" } =
      .error "Stream.io API key and secret are required" ∧
    generateCallToken demoCallSigner 5
      { apiKey := "k", apiSecret := "", userId := "u",
        callIds := some ["default:c1"] } =
      .error "Stream.io API key and secret are required" ∧
    generateUserToken demoUserSigner 5
      { apiKey := "k", apiSecret := "s", userId := "" } =
      .error "User ID is required to generate a token" ∧
    generateCallToken demoCallSigner 5
      { apiKey := "k", apiSecret := "s", userId := "",
        callIds := some ["default:c1"] } =
      .error "User ID is required to generate a call token" ∧
    generateCallToken demoCallSigner 5
      { apiKey := "k", apiSecret := "s", userId := "u",
        callIds := some [] } =
      .error "At least one call ID is required to generate a call token" :=
  ⟨(C3_validation_order demoUserSigner demoCallSigner 5
      { apiKey := "", apiSecret := "s", userId := "u" }
      { apiKey := "k", apiSecret := "", userId := "u",
        callIds := some ["default:c1"] }).1 (Or.inl rfl),
   (C3_validation_order demoUserSigner demoCallSigner 5
      { apiKey := "", apiSecret := "s", userId := "u" }
      { apiKey := "k", apiSecret := "", userId := "u",
        callIds := some ["default:c1"] }).2.1 (Or.inr rfl),
   (C3_validation_order demoUserSigner demoCallSigner 5
      { apiKey := "k", apiSecret := "s", userId := "" }
      { apiKey := "k", apiSecret := "s", userId := "",
        callIds := some ["default:c1"] }).2.2.1
      (by decide) (by decide) rfl,
   (C3_validation_order demoUserSigner demoCallSigner 5
      { apiKey := "k", apiSecret := "s", userId := "" }
      { apiKey := "k", apiSecret := "s", userId := "",
        callIds := some ["default:c1"] }).2.2.2.1
      (by decide) (by decide) rfl,
   (C3_validation_order demoUserSigner demoCallSigner 5
      { apiKey := "k", apiSecret := "s", userId := "u" }
      { apiKey := "k", apiSecret := "s", userId := "u",
        callIds := some [] }).2.2.2.2
      (by decide) (by decide) (by decide) (Or.inr rfl)⟩

/-- Claim C4 counterexample: a request that supplies the empty-string
role gets a successful response with NO role field, refuting "the role
field is present and equal to the request's role exactly when a role was
supplied, and absent otherwise" (which amounts to the response role being
exactly the request role). -/
theorem C4_counterexample :
    ¬ (∀ (signer : CallTokenParams → Except String String) (now : Nat)
          (config : StreamCallTokenConfig) (r : StreamTokenResponse),
        generateCallToken signer now config = .ok r →
        r.role = config.role) := by
  intro hclaim
  have h := hclaim demoCallSigner 5
      { apiKey := "k", apiSecret := "s", userId := "u",
        callIds := some ["default:c1"], role := some "" }
      { token := "token456", userId := "u", apiKey := "k",
        type := TokenType.call, callIds := some ["default:c1"] } rfl
  simp at h

/-- Claim C4 (amended): every successful call-token response has type
"call", echoes the request's callIds verbatim and in order, and carries
the request's role exactly when the supplied role is truthy (present and
non-empty); a role that is omitted or the empty string is absent from the
response. -/
theorem C4_call_token_shape
    (signer : CallTokenParams → Except String String) (now : Nat)
    (config : StreamCallTokenConfig) (r : StreamTokenResponse)
    (h : generateCallToken signer now config = .ok r) :
    r.type = TokenType.call ∧ r.callIds = config.callIds ∧
    r.role = if jsTruthyStr config.role then config.role else none := by
  obtain ⟨t, _, hr⟩ := generateCallToken_ok_inv signer now config r h
  rw [hr]
  exact ⟨rfl, rfl, rfl⟩

/-- Witness for C4 at a concrete request with two callIds and
role "admin". -/
theorem C4_witness :
    ({ token := "token456", userId := "u", apiKey := "k",
       type := TokenType.call,
       callIds := some ["default:call1", "livestream:call2"],
       role := some "admin" } : StreamTokenResponse).type = TokenType.call ∧
    ({ token := "token456", userId := "u", apiKey := "k",
       type := TokenType.call,
       callIds := some ["default:call1", "livestream:call2"],
       role := some "admin" } : StreamTokenResponse).callIds =
      some ["default:call1", "livestream:call2"] ∧
    ({ token := "token456", userId := "u", apiKey := "k",
       type := TokenType.call,
       callIds := some ["default:call1", "livestream:call2"],
       role := some "admin" } : StreamTokenResponse).role =
      (if jsTruthyStr (some "admin") then some "admin" else none) :=
  C4_call_token_shape demoCallSigner 5
    { apiKey := "k", apiSecret := "s", userId := "u",
      callIds := some ["default:call1", "livestream:call2"],
      role := some "admin" }
    { token := "token456", userId := "u", apiKey := "k",
      type := TokenType.call,
      callIds := some ["default:call1", "livestream:call2"],
      role := some "admin" } rfl

/-- Claim C5: `validateStreamConfig` is a total (never-throwing) pure
function; the errors list holds, API-key message first, exactly one
message naming each required key that is unset or empty, so a missing
API key alone gives a one-element list, both missing give the two-element
list, both present give []; and valid is true iff the errors list is
empty. -/
theorem C5_validate_config (env : StreamEnv) :
    ((validateStreamConfig env).valid = true ↔
      (validateStreamConfig env).errors = []) ∧
    (jsTruthyStr env.STREAMIO_API_KEY = true →
      jsTruthyStr env.STREAMIO_API_SECRET = true →
      (validateStreamConfig env).valid = true ∧
        (validateStreamConfig env).errors = []) ∧
    (jsTruthyStr env.STREAMIO_API_KEY = false →
      jsTruthyStr env.STREAMIO_API_SECRET = true →
      (validateStreamConfig env).errors =
        ["STREAMIO_API_KEY environment variable is not set"]) ∧
    (jsTruthyStr env.STREAMIO_API_KEY = true →
      jsTruthyStr env.STREAMIO_API_SECRET = false →
      (validateStreamConfig env).errors =
        ["STREAMIO_API_SECRET environment variable is not set"]) ∧
    (jsTruthyStr env.STREAMIO_API_KEY = false →
      jsTruthyStr env.STREAMIO_API_SECRET = false →
      (validateStreamConfig env).errors =
        ["STREAMIO_API_KEY environment variable is not set",
         "STREAMIO_API_SECRET environment variable is not set"]) := by
  cases hk : jsTruthyStr env.STREAMIO_API_KEY <;>
    cases hs : jsTruthyStr env.STREAMIO_API_SECRET <;>
      simp [validateStreamConfig, hk, hs]

/-- Witness for C5 at the four concrete presence patterns. -/
theorem C5_witness :
    ((validateStreamConfig
        { STREAMIO_API_KEY := some "k",
          STREAMIO_API_SECRET := some "s" }).valid = true ∧
      (validateStreamConfig
        { STREAMIO_API_KEY := some "k",
          STREAMIO_API_SECRET := some "s" }).errors = []) ∧
    (validateStreamConfig
        { STREAMIO_API_KEY := none,
          STREAMIO_API_SECRET := some "s" }).errors =
      ["STREAMIO_API_KEY environment variable is not set"] ∧
    (validateStreamConfig
        { STREAMIO_API_KEY := some "k",
          STREAMIO_API_SECRET := some "" }).errors =
      ["STREAMIO_API_SECRET environment variable is not set"] ∧
    (validateStreamConfig
        { STREAMIO_API_KEY := none,
          STREAMIO_API_SECRET := none }).errors =
      ["STREAMIO_API_KEY environment variable is not set",
       "STREAMIO_API_SECRET environment variable is not set"] :=
  ⟨(C5_validate_config
      { STREAMIO_API_KEY := some "k",
        STREAMIO_API_SECRET := some "s" }).2.1 rfl rfl,
   (C5_validate_config
      { STREAMIO_API_KEY := none,
        STREAMIO_API_SECRET := some "s" }).2.2.1 rfl rfl,
   (C5_validate_config
      { STREAMIO_API_KEY := some "k",
        STREAMIO_API_SECRET := some "" }).2.2.2.1 rfl rfl,
   (C5_validate_config
      { STREAMIO_API_KEY := none,
        STREAMIO_API_SECRET := none }).2.2.2.2 rfl rfl⟩

/-- Claim C6: the record passed to the vendor signer always carries the
userId (and, for call tokens, the callIds); the validity field is set
only if the caller supplied expirationSeconds (omitted expirationSeconds
passes no validity value, for both operations), and the call-token role
field is set only if a role was supplied. -/
theorem C6_vendor_request
    (cfgU : StreamTokenConfig) (cfgC : StreamCallTokenConfig) :
    (mkUserTokenParams cfgU).user_id = cfgU.userId ∧
    (cfgU.expirationSeconds = none →
      (mkUserTokenParams cfgU).validity_in_seconds = none) ∧
    ((mkUserTokenParams cfgU).validity_in_seconds.isSome = true →
      cfgU.expirationSeconds.isSome = true) ∧
    (mkCallTokenParams cfgC).user_id = cfgC.userId ∧
    (mkCallTokenParams cfgC).call_cids = cfgC.callIds.getD [] ∧
    (cfgC.expirationSeconds = none →
      (mkCallTokenParams cfgC).validity_in_seconds = none) ∧
    ((mkCallTokenParams cfgC).validity_in_seconds.isSome = true →
      cfgC.expirationSeconds.isSome = true) ∧
    (cfgC.role = none → (mkCallTokenParams cfgC).role = none) ∧
    ((mkCallTokenParams cfgC).role.isSome = true →
      cfgC.role.isSome = true) := by
  refine ⟨rfl, ?_, ?_, rfl, rfl, ?_, ?_, ?_, ?_⟩
  · intro h
    simp [mkUserTokenParams, h]
  · intro h
    cases he : cfgU.expirationSeconds with
    | none => rw [mkUserTokenParams, he] at h; simp at h
    | some n => simp
  · intro h
    simp [mkCallTokenParams, h, jsTruthyNat]
  · intro h
    cases he : cfgC.expirationSeconds with
    | none => rw [mkCallTokenParams] at h; simp [he, jsTruthyNat] at h
    | some n => simp
  · intro h
    simp [mkCallTokenParams, h, jsTruthyStr]
  · intro h
    cases he : cfgC.role with
    | none => rw [mkCallTokenParams] at h; simp [he, jsTruthyStr] at h
    | some s => simp

/-- Witness for C6 at concrete requests, with the optional fields both
omitted and supplied. -/
theorem C6_witness :
    (mkUserTokenParams
        { apiKey := "k", apiSecret := "s", userId := "alice" }).user_id =
      "alice" ∧
    (mkUserTokenParams
        { apiKey := "k", apiSecret := "s",
          userId := "alice" }).validity_in_seconds = none ∧
    (mkCallTokenParams
        { apiKey := "k", apiSecret := "s", userId := "bob",
          callIds := some ["default:c1"] }).call_cids =
      (some ["default:c1"] : Option (List String)).getD [] ∧
    (mkCallTokenParams
        { apiKey := "k", apiSecret := "s", userId := "bob",
          callIds := some ["default:c1"] }).validity_in_seconds = none ∧
    (mkCallTokenParams
        { apiKey := "k", apiSecret := "s", userId := "bob",
          callIds := some ["default:c1"] }).role = none ∧
    (some 60 : Option Nat).isSome = true ∧
    (some "admin" : Option String).isSome = true :=
  ⟨(C6_vendor_request
      { apiKey := "k", apiSecret := "s", userId := "alice" }
      { apiKey := "k", apiSecret := "s", userId := "bob",
        callIds := some ["default:c1"] }).1,
   (C6_vendor_request
      { apiKey := "k", apiSecret := "s", userId := "alice" }
      { apiKey := "k", apiSecret := "s", userId := "bob",
        callIds := some ["default:c1"] }).2.1 rfl,
   (C6_vendor_request
      { apiKey := "k", apiSecret := "s", userId := "alice" }
      { apiKey := "k", apiSecret := "s", userId := "bob",
        callIds := some ["default:c1"] }).2.2.2.2.1,
   (C6_vendor_request
      { apiKey := "k", apiSecret := "s", userId := "alice" }
      { apiKey := "k", apiSecret := "s", userId := "bob",
        callIds := some ["default:c1"] }).2.2.2.2.2.1 rfl,
   (C6_vendor_request
      { apiKey := "k", apiSecret := "s", userId := "alice" }
      { apiKey := "k", apiSecret := "s", userId := "bob",
        callIds := some ["default:c1"] }).2.2.2.2.2.2.2.1 rfl,
   (C6_vendor_request
      { apiKey := "k", apiSecret := "s", userId := "alice",
        expirationSeconds := some 60 }
      { apiKey := "k", apiSecret := "s", userId := "bob",
        callIds := some ["default:c1"], role := some "admin",
        expirationSeconds := some 60 }).2.2.1 rfl,
   (C6_vendor_request
      { apiKey := "k", apiSecret := "s", userId := "alice",
        expirationSeconds := some 60 }
      { apiKey := "k", apiSecret := "s", userId := "bob",
        callIds := some ["default:c1"], role := some "admin",
        expirationSeconds := some 60 }).2.2.2.2.2.2.2.2 rfl⟩

/-- Claim C7: the deprecated `generateStreamToken` agrees with
`generateUserToken` on every input, every signer and every clock value:
the same response on success and the same error on failure. -/
theorem C7_legacy_alias
    (signer : UserTokenParams → Except String String) (now : Nat)
    (config : StreamTokenConfig) :
    generateStreamToken signer now config =
      generateUserToken signer now config := rfl

/-- Claim C8: on a valid request, a vendor signer that throws with
message m makes the operation fail with the wrapping message that carries
exactly m and nothing else of the vendor; the result is an error, so no
partial response is returned (the `Except` result is either a complete
response or an error). -/
theorem C8_vendor_error_wrapped
    (signerU : UserTokenParams → Except String String)
    (signerC : CallTokenParams → Except String String)
    (now : Nat) (cfgU : StreamTokenConfig) (cfgC : StreamCallTokenConfig)
    (m : String) :
    (cfgU.apiKey ≠ "" → cfgU.apiSecret ≠ "" → cfgU.userId ≠ "" →
      signerU (mkUserTokenParams cfgU) = .error m →
      generateUserToken signerU now cfgU =
        .error ("Failed to generate Stream.io user token: " ++ m)) ∧
    (cfgC.apiKey ≠ "" → cfgC.apiSecret ≠ "" → cfgC.userId ≠ "" →
      ¬(cfgC.callIds = none ∨ cfgC.callIds.getD [] = []) →
      signerC (mkCallTokenParams cfgC) = .error m →
      generateCallToken signerC now cfgC =
        .error ("Failed to generate Stream.io call token: " ++ m)) := by
  constructor
  · intro hk hs hu hsig
    unfold generateUserToken
    rw [if_neg (not_or.mpr ⟨hk, hs⟩), if_neg hu, hsig]
  · intro hk hs hu hi hsig
    unfold generateCallToken
    rw [if_neg (not_or.mpr ⟨hk, hs⟩), if_neg hu, if_neg hi, hsig]

/-- Witness for C8 at concrete valid requests and a throwing signer. -/
theorem C8_witness :
    generateUserToken failingUserSigner 1000
      { apiKey := "k", apiSecret := "s", userId := "alice" } =
      .error ("Failed to generate Stream.io user token: " ++ "boom") ∧
    generateCallToken failingCallSigner 1000
      { apiKey := "k", apiSecret := "s", userId := "bob",
        callIds := some ["default:c1"] } =
      .error ("Failed to generate Stream.io call token: " ++ "boom") :=
  ⟨(C8_vendor_error_wrapped failingUserSigner failingCallSigner 1000
      { apiKey := "k", apiSecret := "s", userId := "alice" }
      { apiKey := "k", apiSecret := "s", userId := "bob",
        callIds := some ["default:c1"] } "boom").1
      (by decide) (by decide) (by decide) rfl,
   (C8_vendor_error_wrapped failingUserSigner failingCallSigner 1000
      { apiKey := "k", apiSecret := "s", userId := "alice" }
      { apiKey := "k", apiSecret := "s", userId := "bob",
        callIds := some ["default:c1"] } "boom").2
      (by decide) (by decide) (by decide) (by simp) rfl⟩

/-- Claim C9: validation failures report only field names, never secret
values: any two requests that differ only in the apiKey/apiSecret values
(and an arbitrary signer and clock) produce identical results whenever
they fail the same validation check, and `validateStreamConfig` depends
only on the presence pattern of the two keys, never on their values. -/
theorem C9_no_secret_leak
    (signerU1 signerU2 : UserTokenParams → Except String String)
    (signerC1 signerC2 : CallTokenParams → Except String String)
    (now1 now2 : Nat) (u : String) (e : Option Nat)
    (ids : Option (List String)) (role : Option String)
    (k1 sec1 k2 sec2 : String) :
    ((k1 = "" ∨ sec1 = "") → (k2 = "" ∨ sec2 = "") →
      generateUserToken signerU1 now1 ⟨k1, sec1, u, e⟩ =
        generateUserToken signerU2 now2 ⟨k2, sec2, u, e⟩) ∧
    (k1 ≠ "" → sec1 ≠ "" → k2 ≠ "" → sec2 ≠ "" → u = "" →
      generateUserToken signerU1 now1 ⟨k1, sec1, u, e⟩ =
        generateUserToken signerU2 now2 ⟨k2, sec2, u, e⟩) ∧
    ((k1 = "" ∨ sec1 = "") → (k2 = "" ∨ sec2 = "") →
      generateCallToken signerC1 now1 ⟨k1, sec1, u, ids, role, e⟩ =
        generateCallToken signerC2 now2 ⟨k2, sec2, u, ids, role, e⟩) ∧
    (k1 ≠ "" → sec1 ≠ "" → k2 ≠ "" → sec2 ≠ "" → u = "" →
      generateCallToken signerC1 now1 ⟨k1, sec1, u, ids, role, e⟩ =
        generateCallToken signerC2 now2 ⟨k2, sec2, u, ids, role, e⟩) ∧
    (k1 ≠ "" → sec1 ≠ "" → k2 ≠ "" → sec2 ≠ "" → u ≠ "" →
      (ids = none ∨ ids = some []) →
      generateCallToken signerC1 now1 ⟨k1, sec1, u, ids, role, e⟩ =
        generateCallToken signerC2 now2 ⟨k2, sec2, u, ids, role, e⟩) ∧
    (∀ env1 env2 : StreamEnv,
      jsTruthyStr env1.STREAMIO_API_KEY =
        jsTruthyStr env2.STREAMIO_API_KEY →
      jsTruthyStr env1.STREAMIO_API_SECRET =
        jsTruthyStr env2.STREAMIO_API_SECRET →
      validateStreamConfig env1 = validateStreamConfig env2) := by
  refine ⟨?_, ?_, ?_, ?_, ?_, ?_⟩
  · intro h1 h2
    rw [generateUserToken_credsMissing signerU1 now1 _ h1,
        generateUserToken_credsMissing signerU2 now2 _ h2]
  · intro hk1 hs1 hk2 hs2 hu
    rw [generateUserToken_userIdMissing signerU1 now1 _
          (not_or.mpr ⟨hk1, hs1⟩) hu,
        generateUserToken_userIdMissing signerU2 now2 _
          (not_or.mpr ⟨hk2, hs2⟩) hu]
  · intro h1 h2
    rw [generateCallToken_credsMissing signerC1 now1 _ h1,
        generateCallToken_credsMissing signerC2 now2 _ h2]
  · intro hk1 hs1 hk2 hs2 hu
    rw [generateCallToken_userIdMissing signerC1 now1 _
          (not_or.mpr ⟨hk1, hs1⟩) hu,
        generateCallToken_userIdMissing signerC2 now2 _
          (not_or.mpr ⟨hk2, hs2⟩) hu]
  · intro hk1 hs1 hk2 hs2 hu hi
    rw [generateCallToken_callIdsMissing signerC1 now1 _
          (not_or.mpr ⟨hk1, hs1⟩) hu hi,
        generateCallToken_callIdsMissing signerC2 now2 _
          (not_or.mpr ⟨hk2, hs2⟩) hu hi]
  · intro env1 env2 h1 h2
    simp only [validateStreamConfig, h1, h2]

/-- Witness for C9 at concrete pairs of requests that differ only in
their secret values. -/
theorem C9_witness :
    generateUserToken demoUserSigner 1 ⟨"", "x", "u", none⟩ =
      generateUserToken failingUserSigner 2 ⟨"", "", "u", none⟩ ∧
    generateUserToken demoUserSigner 1 ⟨"a", "b", "", none⟩ =
      generateUserToken failingUserSigner 2 ⟨"c", "d", "", none⟩ ∧
    generateCallToken demoCallSigner 1
        ⟨"", "x", "u", some ["default:c1"], none, none⟩ =
      generateCallToken failingCallSigner 2
        ⟨"", "", "u", some ["default:c1"], none, none⟩ ∧
    generateCallToken demoCallSigner 1
        ⟨"a", "b", "", some ["default:c1"], none, none⟩ =
      generateCallToken failingCallSigner 2
        ⟨"c", "d", "", some ["default:c1"], none, none⟩ ∧
    generateCallToken demoCallSigner 1 ⟨"a", "b", "u", some [], none, none⟩ =
      generateCallToken failingCallSigner 2
        ⟨"c", "d", "u", some [], none, none⟩ ∧
    validateStreamConfig
        { STREAMIO_API_KEY := none, STREAMIO_API_SECRET := some "b1" } =
      validateStreamConfig
        { STREAMIO_API_KEY := some "", STREAMIO_API_SECRET := some "b2" } :=
  ⟨(C9_no_secret_leak demoUserSigner failingUserSigner demoCallSigner
      failingCallSigner 1 2 "u" none (some ["default:c1"]) none
      "" "x" "" "").1 (Or.inl rfl) (Or.inl rfl),
   (C9_no_secret_leak demoUserSigner failingUserSigner demoCallSigner
      failingCallSigner 1 2 "" none (some ["default:c1"]) none
      "a" "b" "c" "d").2.1 (by decide) (by decide) (by decide) (by decide) rfl,
   (C9_no_secret_leak demoUserSigner failingUserSigner demoCallSigner
      failingCallSigner 1 2 "u" none (some ["default:c1"]) none
      "" "x" "" "").2.2.1 (Or.inl rfl) (Or.inl rfl),
   (C9_no_secret_leak demoUserSigner failingUserSigner demoCallSigner
      failingCallSigner 1 2 "" none (some ["default:c1"]) none
      "a" "b" "c" "d").2.2.2.1
      (by decide) (by decide) (by decide) (by decide) rfl,
   (C9_no_secret_leak demoUserSigner failingUserSigner demoCallSigner
      failingCallSigner 1 2 "u" none (some []) none
      "a" "b" "c" "d").2.2.2.2.1
      (by decide) (by decide) (by decide) (by decide) (by decide)
      (Or.inr rfl),
   (C9_no_secret_leak demoUserSigner failingUserSigner demoCallSigner
      failingCallSigner 1 2 "u" none (some ["default:c1"]) none
      "" "x" "" "").2.2.2.2.2
      { STREAMIO_API_KEY := none, STREAMIO_API_SECRET := some "b1" }
      { STREAMIO_API_KEY := some "", STREAMIO_API_SECRET := some "b2" }
      rfl rfl⟩

/-- Claim C10: supplying expirationSeconds = 0 explicitly behaves as if
it were omitted: the successful response of either operation carries no
expiresAt, and the call-token vendor request carries no validity value
(indeed the whole call-token run is identical to the run with
expirationSeconds omitted). -/
theorem C10_zero_expiration
    (signerU : UserTokenParams → Except String String)
    (signerC : CallTokenParams → Except String String)
    (now : Nat) (cfgU : StreamTokenConfig) (cfgC : StreamCallTokenConfig)
    (rU rC : StreamTokenResponse)
    (hU : cfgU.expirationSeconds = some 0)
    (hC : cfgC.expirationSeconds = some 0) :
    (generateUserToken signerU now cfgU = .ok rU → rU.expiresAt = none) ∧
    (mkCallTokenParams cfgC).validity_in_seconds = none ∧
    generateCallToken signerC now cfgC =
      generateCallToken signerC now
        { cfgC with expirationSeconds := none } ∧
    (generateCallToken signerC now cfgC = .ok rC → rC.expiresAt = none) := by
  refine ⟨?_, ?_, ?_, ?_⟩
  · intro h
    obtain ⟨t, _, hr⟩ := generateUserToken_ok_inv signerU now cfgU rU h
    rw [hr]
    simp [hU, jsTruthyNat]
  · simp [mkCallTokenParams, hC, jsTruthyNat]
  · simp [generateCallToken, mkCallTokenParams, hC, jsTruthyNat]
  · intro h
    obtain ⟨t, _, hr⟩ := generateCallToken_ok_inv signerC now cfgC rC h
    rw [hr]
    simp [hC, jsTruthyNat]

/-- Witness for C10 at concrete requests with expirationSeconds = 0. -/
theorem C10_witness :
    (({ token := "token123", userId := "alice", apiKey := "k",
        type := TokenType.user } : StreamTokenResponse).expiresAt = none) ∧
    (mkCallTokenParams
        { apiKey := "k", apiSecret := "s", userId := "bob",
          callIds := some ["default:c1"],
          expirationSeconds := some 0 }).validity_in_seconds = none ∧
    generateCallToken demoCallSigner 1000
        { apiKey := "k", apiSecret := "s", userId := "bob",
          callIds := some ["default:c1"], expirationSeconds := some 0 } =
      generateCallToken demoCallSigner 1000
        { apiKey := "k", apiSecret := "s", userId := "bob",
          callIds := some ["default:c1"] } ∧
    (({ token := "token456", userId := "bob", apiKey := "k",
        type := TokenType.call, callIds := some ["default:c1"] } :
        StreamTokenResponse).expiresAt = none) := by
  have h := C10_zero_expiration demoUserSigner demoCallSigner 1000
    { apiKey := "k", apiSecret := "s", userId := "alice",
      expirationSeconds := some 0 }
    { apiKey := "k", apiSecret := "s", userId := "bob",
      callIds := some ["default:c1"], expirationSeconds := some 0 }
    { token := "token123", userId := "alice", apiKey := "k",
      type := TokenType.user }
    { token := "token456", userId := "bob", apiKey := "k",
      type := TokenType.call, callIds := some ["default:c1"] }
    rfl rfl
  exact ⟨h.1 rfl, h.2.1, h.2.2.1, h.2.2.2 rfl⟩
